import Mathlib

/-!
Verification development for the storage-facility scanner (`src/app.py`).

The source is a Flask application with two parts:
* a pure grid generator `GridCalculator.calculate_scan_grid` /
  `GridCalculator._distance_miles`, and
* an in-memory session store manipulated by request handlers
  (`setup_scan`, `control_scan`, `add_bookmark`, `get_current_location`,
  `export_bookmarks`).

We embed both shallowly.  Python floats are idealized as real numbers
(the transcendental haversine arithmetic makes an exact float model
impossible; every claim settled here is robust to this idealization and
every concrete evaluation used below is exact in binary floating point
as well).  Python `int` values are embedded as `ℤ`, timestamps and
generated UUIDs as opaque `String` parameters supplied by the caller,
and the JSON error responses as `Except String`.  The display-URL
fields of a grid point (`google_maps_url` etc.) are formatted strings
derived from `lat`/`lon`/`zoom` only; no claim mentions them and string
formatting of floats is not modelled, so they are omitted from the
record.
-/

/-- Python `int()` applied to a float: truncation toward zero. -/
noncomputable def pyInt (x : ℝ) : ℤ :=
  if 0 ≤ x then Int.floor x else Int.ceil x

/-- Python `round(x, n)`: rounding to `n` decimal places.  Mathlib's
`round` rounds halves up where Python rounds halves to even; the two
agree off ties and no claim depends on a tie. -/
noncomputable def pyRound (x : ℝ) (n : ℕ) : ℝ :=
  ((round (x * 10 ^ n) : ℤ) : ℝ) / 10 ^ n

/-- `math.radians` from `app.py`'s haversine code. -/
noncomputable def radians (x : ℝ) : ℝ :=
  x * Real.pi / 180

/-- `math.atan2 y x` (signed zeros ignored, which is irrelevant here:
the source only calls it on nonnegative arguments). -/
noncomputable def atan2 (y x : ℝ) : ℝ :=
  if 0 < x then Real.arctan (y / x)
  else if x < 0 ∧ 0 ≤ y then Real.arctan (y / x) + Real.pi
  else if x < 0 ∧ y < 0 then Real.arctan (y / x) - Real.pi
  else if x = 0 ∧ 0 < y then Real.pi / 2
  else if x = 0 ∧ y < 0 then -(Real.pi / 2)
  else 0

/-- `GridCalculator._distance_miles` (src/app.py lines 77-89): haversine
distance in miles, Earth radius 3959. -/
noncomputable def _distance_miles (lat1 lon1 lat2 lon2 : ℝ) : ℝ :=
  let R : ℝ := 3959
  let dlat := radians (lat2 - lat1)
  let dlon := radians (lon2 - lon1)
  let a := Real.sin (dlat / 2) * Real.sin (dlat / 2) +
    Real.cos (radians lat1) * Real.cos (radians lat2) *
    Real.sin (dlon / 2) * Real.sin (dlon / 2)
  let c := 2 * atan2 (Real.sqrt a) (Real.sqrt (1 - a))
  R * c

/-- One entry of the list built by `calculate_scan_grid`
(src/app.py lines 61-72); the four provider-URL strings are derived
display data and are omitted (see the header comment). -/
structure GridPoint where
  id : ℕ
  lat : ℝ
  lon : ℝ
  row : ℕ
  col : ℕ
  distance_from_center : ℝ

/-- `viewport_degrees.get(zoom_level, 0.0025)` (src/app.py lines 31-39):
the zoom → viewport-size table with its level-18 default. -/
noncomputable def view_size (zoom_level : ℤ) : ℝ :=
  if zoom_level = 15 then 0.02
  else if zoom_level = 16 then 0.01
  else if zoom_level = 17 then 0.005
  else if zoom_level = 18 then 0.0025
  else if zoom_level = 19 then 0.00125
  else 0.0025

/-- `radius_deg = radius_miles / 69.0` (src/app.py line 40). -/
noncomputable def radius_deg (radius_miles : ℝ) : ℝ :=
  radius_miles / 69.0

/-- `step_size = view_size * 0.8` (src/app.py line 43). -/
noncomputable def step_size (zoom_level : ℤ) : ℝ :=
  view_size zoom_level * 0.8

/-- `grid_size = int(2 * radius_deg / step_size) + 1` (src/app.py line 44). -/
noncomputable def grid_size (radius_miles : ℝ) (zoom_level : ℤ) : ℤ :=
  pyInt (2 * radius_deg radius_miles / step_size zoom_level) + 1

/-- `lat = center_lat - radius_deg + (row * step_size)` (src/app.py line 50). -/
noncomputable def cell_lat (center_lat radius_miles : ℝ) (zoom_level : ℤ)
    (row : ℕ) : ℝ :=
  center_lat - radius_deg radius_miles + (row : ℝ) * step_size zoom_level

/-- `lon = center_lon - radius_deg + (col * step_size)` (src/app.py line 56). -/
noncomputable def cell_lon (center_lon radius_miles : ℝ) (zoom_level : ℤ)
    (col : ℕ) : ℝ :=
  center_lon - radius_deg radius_miles + (col : ℝ) * step_size zoom_level

/-- The distance computed at src/app.py line 59 for the lattice cell
`(row, col)`. -/
noncomputable def cell_distance (center_lat center_lon radius_miles : ℝ)
    (zoom_level : ℤ) (row col : ℕ) : ℝ :=
  _distance_miles center_lat center_lon
    (cell_lat center_lat radius_miles zoom_level row)
    (cell_lon center_lon radius_miles zoom_level col)

/-- The column order of one row (src/app.py line 53):
`range(grid_size)` on even rows, `range(grid_size - 1, -1, -1)` on odd
rows. -/
def row_cols (gs : ℕ) (row : ℕ) : List ℕ :=
  if row % 2 = 0 then List.range gs else (List.range gs).reverse

/-- The `(row, col)` cells in the order the two nested loops of
src/app.py lines 49-55 visit them. -/
def grid_cells (gs : ℕ) : List (ℕ × ℕ) :=
  (List.range gs).flatMap fun row => (row_cols gs row).map fun col => (row, col)

/-- The dictionary appended at src/app.py lines 61-72 for cell
`(row, col)` when `point_id = i`. -/
noncomputable def mk_grid_point (center_lat center_lon radius_miles : ℝ)
    (zoom_level : ℤ) (i row col : ℕ) : GridPoint :=
  { id := i
    lat := pyRound (cell_lat center_lat radius_miles zoom_level row) 6
    lon := pyRound (cell_lon center_lon radius_miles zoom_level col) 6
    row := row
    col := col
    distance_from_center :=
      pyRound (cell_distance center_lat center_lon radius_miles zoom_level row col) 2 }

/-- The body of the inner loop (src/app.py lines 55-73): keep the cell
iff its distance is `<= radius_miles`, assigning and bumping `point_id`. -/
noncomputable def grid_fold_step (center_lat center_lon radius_miles : ℝ)
    (zoom_level : ℤ) (acc : List GridPoint × ℕ) (rc : ℕ × ℕ) :
    List GridPoint × ℕ :=
  if cell_distance center_lat center_lon radius_miles zoom_level rc.1 rc.2 ≤ radius_miles then
    (acc.1 ++ [mk_grid_point center_lat center_lon radius_miles zoom_level acc.2 rc.1 rc.2],
     acc.2 + 1)
  else acc

/-- `GridCalculator.calculate_scan_grid` (src/app.py lines 25-75): the
nested row/column loops flattened into a fold over the cells in
traversal order, carrying the accumulated list and `point_id`. -/
noncomputable def calculate_scan_grid (center_lat center_lon radius_miles : ℝ)
    (zoom_level : ℤ) : List GridPoint :=
  ((grid_cells (grid_size radius_miles zoom_level).toNat).foldl
    (grid_fold_step center_lat center_lon radius_miles zoom_level) ([], 0)).1

/-- The cells that pass the radius filter, in traversal order. -/
noncomputable def kept_cells (center_lat center_lon radius_miles : ℝ)
    (zoom_level : ℤ) (gs : ℕ) : List (ℕ × ℕ) :=
  (grid_cells gs).filter fun rc =>
    decide (cell_distance center_lat center_lon radius_miles zoom_level rc.1 rc.2 ≤ radius_miles)

/-- A bookmark record (src/app.py lines 235-244); `id` and `timestamp`
are the generated UUID and wall-clock strings, supplied as parameters,
and the two derived URL strings are omitted as for `GridPoint`. -/
structure Bookmark where
  id : String
  lat : ℝ
  lon : ℝ
  note : String
  grid_index : ℤ
  timestamp : String

/-- One entry of `scanning_sessions` (src/app.py lines 120-134). -/
structure ScanSession where
  id : String
  center_lat : ℝ
  center_lon : ℝ
  radius_miles : ℝ
  zoom_level : ℤ
  speed_seconds : ℝ
  grid_points : List GridPoint
  current_index : ℤ
  is_running : Bool
  is_paused : Bool
  bookmarks : List Bookmark
  created_at : String
  last_activity : String

/-- Python list indexing `l[i]` with an `int` index: negative indices
count from the end; an index that is still out of bounds raises
`IndexError`, modelled as `none`. -/
def pyGetElem {α : Type} (l : List α) (i : ℤ) : Option α :=
  let j : ℤ := if i < 0 then (l.length : ℤ) + i else i
  if 0 ≤ j then l.get? j.toNat else none

/-- The session created by `setup_scan` (src/app.py lines 98-137); the
fresh UUID and the two identical `datetime.now()` strings are supplied
by the caller.  (The route's float/int parsing of the JSON body is
outside the model; a parse failure creates no session.) -/
noncomputable def setup_scan (session_id : String)
    (center_lat center_lon radius_miles : ℝ) (zoom_level : ℤ)
    (speed_seconds : ℝ) (now : String) : ScanSession :=
  { id := session_id
    center_lat := center_lat
    center_lon := center_lon
    radius_miles := radius_miles
    zoom_level := zoom_level
    speed_seconds := speed_seconds
    grid_points := calculate_scan_grid center_lat center_lon radius_miles zoom_level
    current_index := 0
    is_running := false
    is_paused := false
    bookmarks := []
    created_at := now
    last_activity := now }

/-- `control_scan` (src/app.py lines 183-217) on a looked-up session:
the response (always `{'success': True}` once the session exists,
modelled as `Except.ok ()`) together with the updated session.
`index` is the request's `.get('index', 0)` and `now` the
`datetime.now()` string written to `last_activity`. -/
noncomputable def control_scan (s : ScanSession) (action : String)
    (index : Option ℤ) (now : String) : Except String Unit × ScanSession :=
  let s' :=
    if action = "start" then { s with is_running := true, is_paused := false }
    else if action = "pause" then { s with is_paused := true }
    else if action = "resume" then { s with is_paused := false }
    else if action = "stop" then { s with is_running := false, is_paused := false }
    else if action = "next" then
      { s with current_index := min (s.current_index + 1) ((s.grid_points.length : ℤ) - 1) }
    else if action = "previous" then
      { s with current_index := max (s.current_index - 1) 0 }
    else if action = "jump" then
      { s with current_index := max 0 (min (index.getD 0) ((s.grid_points.length : ℤ) - 1)) }
    else s
  (Except.ok (), { s' with last_activity := now })

/-- The successful payload of `get_current_location`
(src/app.py lines 150-180): either the current point with its progress
data, or the completed marker. -/
inductive LocationResult where
  | current (current_point : GridPoint) (current_index : ℤ) (total_points : ℕ)
      (progress_percent : ℝ) (running paused : Bool)
  | completed

/-- `get_current_location` (src/app.py lines 150-180) on a looked-up
session: a read-only view.  The `Except.error "IndexError"` arm is the
uncaught exception Python raises when `current_index` is negative and
`grid_points[current_index]` is still out of bounds (only possible on
an empty grid). -/
noncomputable def get_current_location (s : ScanSession) :
    Except String LocationResult × ScanSession :=
  (if s.current_index < (s.grid_points.length : ℤ) then
    match pyGetElem s.grid_points s.current_index with
    | some p =>
        Except.ok (LocationResult.current p s.current_index s.grid_points.length
          ((s.current_index : ℝ) / (s.grid_points.length : ℝ) * 100)
          s.is_running s.is_paused)
    | none => Except.error "IndexError"
  else Except.ok LocationResult.completed, s)

/-- `add_bookmark` (src/app.py lines 220-251) on a looked-up session:
the response (the created bookmark, or the route's error JSON, or the
uncaught `IndexError` raised by `grid_points[current_index]` when the
index is negative and out of bounds) together with the updated session.
`bid` and `now` are the generated UUID and timestamp. -/
noncomputable def add_bookmark (s : ScanSession) (note : Option String)
    (bid now : String) : Except String Bookmark × ScanSession :=
  if s.current_index < (s.grid_points.length : ℤ) then
    match pyGetElem s.grid_points s.current_index with
    | some p =>
        let b : Bookmark :=
          { id := bid
            lat := p.lat
            lon := p.lon
            note := note.getD "Potential storage facility"
            grid_index := s.current_index
            timestamp := now }
        (Except.ok b, { s with bookmarks := s.bookmarks ++ [b], last_activity := now })
    | none => (Except.error "IndexError", s)
  else (Except.error "Invalid location for bookmarking", s)

/-- `get_bookmarks` (src/app.py lines 254-263): a read-only view of the
bookmark list. -/
def get_bookmarks (s : ScanSession) : List Bookmark × ScanSession :=
  (s.bookmarks, s)

/-- The export document of `export_bookmarks` (src/app.py lines
276-291), with the nested `scan_info` / `summary` dictionaries
flattened into one record. -/
structure ExportData where
  center_lat : ℝ
  center_lon : ℝ
  radius_miles : ℝ
  zoom_level : ℤ
  total_points_scanned : ℤ
  scan_date : String
  bookmarks : List Bookmark
  total_bookmarks : ℕ
  areas_scanned : ℤ
  completion_percentage : ℝ

/-- `export_bookmarks` (src/app.py lines 266-293) on a looked-up
session: builds the snapshot without touching the session.  The
`Except.error "ZeroDivisionError"` arm is the uncaught exception Python
raises in `current_index / len(grid_points)` when the grid is empty. -/
noncomputable def export_bookmarks (s : ScanSession) :
    Except String ExportData × ScanSession :=
  (if s.grid_points.length = 0 then Except.error "ZeroDivisionError"
   else Except.ok
    { center_lat := s.center_lat
      center_lon := s.center_lon
      radius_miles := s.radius_miles
      zoom_level := s.zoom_level
      total_points_scanned := s.current_index
      scan_date := s.created_at
      bookmarks := s.bookmarks
      total_bookmarks := s.bookmarks.length
      areas_scanned := s.current_index
      completion_percentage :=
        (s.current_index : ℝ) / (s.grid_points.length : ℝ) * 100 }, s)

/-- Run a list of `control_scan` requests `(action, index, now)` in
order against a session. -/
noncomputable def run_controls (s : ScanSession)
    (acts : List (String × Option ℤ × String)) : ScanSession :=
  acts.foldl (fun t a => (control_scan t a.1 a.2.1 a.2.2).2) s

/-- The invariant of §3 of the spec:
`0 <= current_index <= len(grid_points)`. -/
def session_inv (s : ScanSession) : Prop :=
  0 ≤ s.current_index ∧ s.current_index ≤ (s.grid_points.length : ℤ)

/-- A concrete session with an empty grid, as produced by a setup
request with a negative radius (only the fields matter here, so it is
written out directly). -/
def sessionEmpty : ScanSession :=
  { id := "s0"
    center_lat := 0
    center_lon := 0
    radius_miles := -1
    zoom_level := 18
    speed_seconds := 3
    grid_points := []
    current_index := 0
    is_running := false
    is_paused := false
    bookmarks := []
    created_at := "t0"
    last_activity := "t0" }

/-- A concrete session holding a 500-point grid. -/
def session500 : ScanSession :=
  { id := "s500"
    center_lat := 0
    center_lon := 0
    radius_miles := 6
    zoom_level := 18
    speed_seconds := 3
    grid_points := List.replicate 500 ⟨0, 0, 0, 0, 0, 0⟩
    current_index := 0
    is_running := false
    is_paused := false
    bookmarks := []
    created_at := "t0"
    last_activity := "t0" }

/-- Unfolding the loop: folding `grid_fold_step` over any cell list
appends, to the accumulated points, the kept cells numbered
consecutively from the current `point_id`. -/
lemma grid_foldl_eq (center_lat center_lon radius_miles : ℝ) (zoom_level : ℤ)
    (cells : List (ℕ × ℕ)) (ps : List GridPoint) (n : ℕ) :
    cells.foldl (grid_fold_step center_lat center_lon radius_miles zoom_level) (ps, n) =
      (ps ++ (List.enumFrom n (cells.filter fun rc =>
          decide (cell_distance center_lat center_lon radius_miles zoom_level rc.1 rc.2
            ≤ radius_miles))).map
        (fun p => mk_grid_point center_lat center_lon radius_miles zoom_level p.1 p.2.1 p.2.2),
       n + (cells.filter fun rc =>
          decide (cell_distance center_lat center_lon radius_miles zoom_level rc.1 rc.2
            ≤ radius_miles)).length) := by
  induction cells generalizing ps n with
  | nil => simp
  | cons c cs ih =>
    by_cases h : cell_distance center_lat center_lon radius_miles zoom_level c.1 c.2
        ≤ radius_miles
    · simp only [List.foldl_cons, grid_fold_step, if_pos h, List.filter_cons,
        decide_eq_true_eq, h, if_true, List.enumFrom_cons, List.map_cons,
        List.length_cons, ih]
      refine Prod.mk.injEq _ _ _ _ ▸ ⟨by simp, by omega⟩
    · simp only [List.foldl_cons, grid_fold_step, if_neg h, List.filter_cons,
        decide_eq_true_eq, h, if_false, ih]

/-- `calculate_scan_grid` in closed form: the kept cells in traversal
order, each turned into a `GridPoint` whose `id` is its position. -/
lemma calculate_scan_grid_eq (center_lat center_lon radius_miles : ℝ)
    (zoom_level : ℤ) :
    calculate_scan_grid center_lat center_lon radius_miles zoom_level =
      (kept_cells center_lat center_lon radius_miles zoom_level
          (grid_size radius_miles zoom_level).toNat).enum.map
        (fun p => mk_grid_point center_lat center_lon radius_miles zoom_level p.1 p.2.1 p.2.2) := by
  have h := grid_foldl_eq center_lat center_lon radius_miles zoom_level
    (grid_cells (grid_size radius_miles zoom_level).toNat) [] 0
  simp only [calculate_scan_grid, h, List.nil_append, kept_cells]
  rfl

/-- The order in which the nested loops visit two cells: strictly later
row, or same row with the column advancing in that row's direction. -/
def cell_rel (a b : ℕ × ℕ) : Prop :=
  a.1 < b.1 ∨ (a.1 = b.1 ∧ (if a.1 % 2 = 0 then a.2 < b.2 else b.2 < a.2))

lemma pairwise_grid_cells (gs : ℕ) : (grid_cells gs).Pairwise cell_rel := by
  unfold grid_cells
  rw [List.pairwise_flatMap]
  constructor
  · intro row _
    rw [List.pairwise_map]
    unfold row_cols
    by_cases h : row % 2 = 0
    · rw [if_pos h]
      exact (List.pairwise_lt_range gs).imp fun hab =>
        Or.inr ⟨rfl, by simp only [if_pos h]; exact hab⟩
    · rw [if_neg h, List.pairwise_reverse]
      exact (List.pairwise_lt_range gs).imp fun hab =>
        Or.inr ⟨rfl, by simp only [if_neg h]; exact hab⟩
  · refine (List.pairwise_lt_range gs).imp ?_
    intro r1 r2 h12
    intro x hx y hy
    obtain ⟨c1, -, rfl⟩ := List.mem_map.1 hx
    obtain ⟨c2, -, rfl⟩ := List.mem_map.1 hy
    exact Or.inl h12

lemma arctan_nonneg {t : ℝ} (h : 0 ≤ t) : 0 ≤ Real.arctan t := by
  rw [← Real.arctan_zero]
  exact Real.arctan_strictMono.monotone h

lemma atan2_nonneg (y x : ℝ) (hy : 0 ≤ y) (hx : 0 ≤ x) : 0 ≤ atan2 y x := by
  unfold atan2
  split_ifs with h1 h2 h3 h4 h5
  · exact arctan_nonneg (div_nonneg hy h1.le)
  · exact absurd h2.1 (not_lt.2 hx)
  · exact absurd h3.1 (not_lt.2 hx)
  · linarith [Real.pi_pos]
  · exact absurd h5.2 (not_lt.2 hy)
  · exact le_refl 0

/-- The haversine value is never negative in the real-number model
(`Real.sqrt` clamps a negative radicand to `0`, and `atan2` of two
nonnegative arguments is nonnegative). -/
lemma haversine_core_nonneg (a : ℝ) :
    0 ≤ (3959 : ℝ) * (2 * atan2 (Real.sqrt a) (Real.sqrt (1 - a))) := by
  have h := atan2_nonneg (Real.sqrt a) (Real.sqrt (1 - a))
    (Real.sqrt_nonneg _) (Real.sqrt_nonneg _)
  positivity

lemma _distance_miles_nonneg (lat1 lon1 lat2 lon2 : ℝ) :
    0 ≤ _distance_miles lat1 lon1 lat2 lon2 :=
  haversine_core_nonneg _

lemma atan2_zero_one : atan2 0 1 = 0 := by
  unfold atan2
  rw [if_pos one_pos]
  simp [Real.arctan_zero]

/-- Haversine distance from a point to itself is zero. -/
lemma _distance_miles_self (lat lon : ℝ) : _distance_miles lat lon lat lon = 0 := by
  unfold _distance_miles radians
  simp only [sub_self, zero_mul, zero_div, Real.sin_zero, mul_zero, zero_add,
    add_zero, Real.sqrt_zero, sub_zero, Real.sqrt_one, atan2_zero_one]

lemma mem_kept_cells {center_lat center_lon radius_miles : ℝ} {zoom_level : ℤ}
    {gs : ℕ} {rc : ℕ × ℕ}
    (h : rc ∈ kept_cells center_lat center_lon radius_miles zoom_level gs) :
    cell_distance center_lat center_lon radius_miles zoom_level rc.1 rc.2 ≤ radius_miles := by
  rw [kept_cells, List.mem_filter] at h
  exact of_decide_eq_true h.2

lemma snd_mem_of_mem_enum {α : Type} {l : List α} {i : ℕ} {a : α}
    (h : (i, a) ∈ l.enum) : a ∈ l := by
  have h2 := List.mem_enumFrom h
  obtain ⟨-, -, h3⟩ := h2
  rw [h3]
  exact List.getElem_mem _

/-- C1: every `GridPoint` returned by `calculate_scan_grid` comes from a
lattice candidate whose haversine distance (Earth radius 3959 miles)
from the center is at most `radius_miles`; equivalently, a candidate
whose distance exceeds `radius_miles` is never included.  (The point's
stored `lat`/`lon` are the candidate's coordinates rounded to 6
decimals; the distance test of src/app.py line 60 is applied to the
unrounded candidate, which is what is stated here via the point's
`row`/`col`.) -/
theorem grid_points_within_radius (center_lat center_lon radius_miles : ℝ)
    (zoom_level : ℤ) :
    (calculate_scan_grid center_lat center_lon radius_miles zoom_level).Forall
      (fun p => _distance_miles center_lat center_lon
        (cell_lat center_lat radius_miles zoom_level p.row)
        (cell_lon center_lon radius_miles zoom_level p.col) ≤ radius_miles) := by
  rw [List.forall_iff_forall_mem]
  intro p hp
  rw [calculate_scan_grid_eq] at hp
  obtain ⟨⟨i, rc⟩, hmem, rfl⟩ := List.mem_map.1 hp
  have hrc := mem_kept_cells (snd_mem_of_mem_enum hmem)
  simpa [mk_grid_point, cell_distance] using hrc

/-- C2: each returned point's `lat` is row `r`'s latitude
`center_lat - radius_deg + r*step` (rounded to 6 decimals, as the
source stores it), and the scan order is serpentine: among points of
the same row, the column strictly ascends on even rows and strictly
descends on odd rows, so the direction flips between adjacent rows. -/
theorem grid_serpentine_order (center_lat center_lon radius_miles : ℝ)
    (zoom_level : ℤ) :
    (calculate_scan_grid center_lat center_lon radius_miles zoom_level).Forall
      (fun p => p.lat = pyRound (cell_lat center_lat radius_miles zoom_level p.row) 6) ∧
    List.Pairwise
      (fun p q => p.row = q.row →
        (if p.row % 2 = 0 then p.col < q.col else q.col < p.col))
      (calculate_scan_grid center_lat center_lon radius_miles zoom_level) := by
  constructor
  · rw [List.forall_iff_forall_mem]
    intro p hp
    rw [calculate_scan_grid_eq] at hp
    obtain ⟨⟨i, rc⟩, hmem, rfl⟩ := List.mem_map.1 hp
    simp [mk_grid_point]
  · rw [calculate_scan_grid_eq, List.pairwise_map]
    have hk : (kept_cells center_lat center_lon radius_miles zoom_level
        (grid_size radius_miles zoom_level).toNat).Pairwise cell_rel :=
      List.Pairwise.sublist (List.filter_sublist _) (pairwise_grid_cells _)
    rw [← List.enum_map_snd (kept_cells center_lat center_lon radius_miles zoom_level
      (grid_size radius_miles zoom_level).toNat), List.pairwise_map] at hk
    refine hk.imp ?_
    intro a b hab
    simp only [mk_grid_point]
    intro heq
    rcases hab with hlt | ⟨-, hcond⟩
    · exact absurd heq (by omega)
    · exact hcond

/-- C3: the `id` fields of the returned sequence are exactly
`0, 1, 2, ...` in order: the list of ids equals `range` of the output
length. -/
theorem grid_ids_contiguous (center_lat center_lon radius_miles : ℝ)
    (zoom_level : ℤ) :
    (calculate_scan_grid center_lat center_lon radius_miles zoom_level).map GridPoint.id =
      List.range (calculate_scan_grid center_lat center_lon radius_miles zoom_level).length := by
  rw [calculate_scan_grid_eq, List.map_map, List.length_map, List.enum_length]
  have h : (GridPoint.id ∘ fun p : ℕ × ℕ × ℕ =>
      mk_grid_point center_lat center_lon radius_miles zoom_level p.1 p.2.1 p.2.2) =
      Prod.fst := by
    funext p
    simp [mk_grid_point]
  rw [h, List.enum_map_fst]

/-- With a strictly negative radius every candidate fails the
`distance <= radius_miles` test (distance is nonnegative), so the
output is empty whatever `grid_size` turns out to be. -/
lemma calc_grid_neg_radius (center_lat center_lon radius_miles : ℝ)
    (zoom_level : ℤ) (h : radius_miles < 0) :
    calculate_scan_grid center_lat center_lon radius_miles zoom_level = [] := by
  rw [calculate_scan_grid_eq]
  have hk : kept_cells center_lat center_lon radius_miles zoom_level
      (grid_size radius_miles zoom_level).toNat = [] := by
    rw [kept_cells, List.filter_eq_nil_iff]
    intro rc _
    simp only [decide_eq_true_eq]
    intro hle
    have h0 : 0 ≤ cell_distance center_lat center_lon radius_miles zoom_level rc.1 rc.2 := by
      unfold cell_distance
      exact _distance_miles_nonneg _ _ _ _
    linarith
  rw [hk]
  rfl

/-- With `grid_size <= 0` the row loop `range(grid_size)` is empty, so
the output is empty. -/
lemma calc_grid_gs_nonpos (center_lat center_lon radius_miles : ℝ)
    (zoom_level : ℤ) (h : grid_size radius_miles zoom_level ≤ 0) :
    calculate_scan_grid center_lat center_lon radius_miles zoom_level = [] := by
  rw [calculate_scan_grid_eq]
  have h0 : (grid_size radius_miles zoom_level).toNat = 0 := Int.toNat_of_nonpos h
  rw [h0]
  rfl

lemma cell_lat_zero : cell_lat 0 0 18 0 = 0 := by
  unfold cell_lat radius_deg step_size view_size
  norm_num

lemma cell_lon_zero : cell_lon 0 0 18 0 = 0 := by
  unfold cell_lon radius_deg step_size view_size
  norm_num

lemma cell_distance_zero : cell_distance 0 0 0 18 0 0 = 0 := by
  unfold cell_distance
  rw [cell_lat_zero, cell_lon_zero]
  exact _distance_miles_self 0 0

/-- At radius `0` the code keeps exactly the lattice center: `grid_size`
is `int(0) + 1 = 1`, the single candidate is the center itself, and its
distance `0` passes the `<= 0` test. -/
lemma grid_zero_radius_eval :
    calculate_scan_grid 0 0 0 18 =
      [{ id := 0, lat := 0, lon := 0, row := 0, col := 0, distance_from_center := 0 }] := by
  rw [calculate_scan_grid_eq]
  have hgs : grid_size 0 18 = 1 := by
    unfold grid_size pyInt radius_deg step_size view_size
    norm_num
  rw [hgs]
  have hcells : grid_cells (Int.toNat 1) = [(0, 0)] := rfl
  have hdec : decide (cell_distance 0 0 0 18 0 0 ≤ (0 : ℝ)) = true :=
    decide_eq_true (le_of_eq cell_distance_zero)
  have hk : kept_cells 0 0 0 18 (Int.toNat 1) = [(0, 0)] := by
    rw [kept_cells, hcells, List.filter_cons]
    simp only [hdec, if_true]
    rfl
  rw [hk]
  have hround6 : pyRound 0 6 = 0 := by
    unfold pyRound
    norm_num
  have hround2 : pyRound 0 2 = 0 := by
    unfold pyRound
    norm_num
  simp [List.enum, List.enumFrom, mk_grid_point, cell_lat_zero, cell_lon_zero,
    cell_distance_zero, hround6, hround2]

/-- C4 counterexample: the claim fails at
`(center_lat, center_lon, radius_miles, zoom_level) = (0, 0, 0, 18)`:
the radius `0` satisfies `radius_miles <= 0`, yet the generator returns
the one-point list holding the lattice center (its distance `0` passes
the `<= radius_miles` test). -/
theorem grid_degenerate_empty_cex :
    (0 : ℝ) ≤ 0 ∧ calculate_scan_grid 0 0 0 18 ≠ [] := by
  refine ⟨le_refl 0, ?_⟩
  rw [grid_zero_radius_eval]
  simp

/-- C4 (amended): for every input with `radius_miles` strictly negative,
and for every input whose derived `grid_size` is `<= 0`, the grid
generator returns an empty sequence.  (At `radius_miles = 0` the claim
as stated fails: the lattice center itself, at distance `0`, is
retained — see `grid_degenerate_empty_cex`.) -/
theorem grid_degenerate_empty (center_lat center_lon radius_miles : ℝ)
    (zoom_level : ℤ)
    (h : radius_miles < 0 ∨ grid_size radius_miles zoom_level ≤ 0) :
    calculate_scan_grid center_lat center_lon radius_miles zoom_level = [] := by
  rcases h with h | h
  · exact calc_grid_neg_radius _ _ _ _ h
  · exact calc_grid_gs_nonpos _ _ _ _ h

/-- C4 witness: the amended theorem applied at the concrete input
`(0, 0, -1, 18)`. -/
theorem grid_degenerate_empty_witness :
    ((-1 : ℝ) < 0 ∨ grid_size (-1) 18 ≤ 0) ∧ calculate_scan_grid 0 0 (-1) 18 = [] :=
  ⟨Or.inl (by norm_num), grid_degenerate_empty 0 0 (-1) 18 (Or.inl (by norm_num))⟩

lemma control_scan_grid_points (s : ScanSession) (a : String) (i : Option ℤ)
    (now : String) : (control_scan s a i now).2.grid_points = s.grid_points := by
  unfold control_scan
  split_ifs <;> rfl

lemma control_scan_next_index (s : ScanSession) (i : Option ℤ) (now : String) :
    (control_scan s "next" i now).2.current_index =
      min (s.current_index + 1) ((s.grid_points.length : ℤ) - 1) := by
  simp [control_scan]

lemma control_scan_previous_index (s : ScanSession) (i : Option ℤ) (now : String) :
    (control_scan s "previous" i now).2.current_index =
      max (s.current_index - 1) 0 := by
  simp [control_scan]

lemma control_scan_jump_index (s : ScanSession) (j : ℤ) (now : String) :
    (control_scan s "jump" (some j) now).2.current_index =
      max 0 (min j ((s.grid_points.length : ℤ) - 1)) := by
  simp [control_scan]

/-- The session-store invariant is preserved by any control action, as
long as the grid is non-empty or the action is not `next` (the `next`
action on an empty grid clamps to `len - 1 = -1`). -/
lemma control_scan_inv (s : ScanSession) (a : String) (i : Option ℤ) (now : String)
    (h : session_inv s) (hcase : s.grid_points ≠ [] ∨ a ≠ "next") :
    session_inv (control_scan s a i now).2 := by
  obtain ⟨h0, h1⟩ := h
  unfold control_scan session_inv
  split_ifs with hs hp hr hst hn hpr hj
  · exact ⟨h0, h1⟩
  · exact ⟨h0, h1⟩
  · exact ⟨h0, h1⟩
  · exact ⟨h0, h1⟩
  · have hne : s.grid_points ≠ [] := hcase.resolve_right (not_not_intro hn)
    have hlen : s.grid_points.length ≠ 0 := fun hh => hne (List.length_eq_zero.1 hh)
    constructor
    · simp only []
      omega
    · simp only []
      omega
  · constructor
    · simp only []
      omega
    · simp only []
      omega
  · constructor
    · simp only []
      omega
    · simp only []
      omega
  · exact ⟨h0, h1⟩

/-- Strict version for non-empty grids: every control action keeps
`0 <= current_index <= len - 1`. -/
lemma control_scan_strong_inv (s : ScanSession) (a : String) (i : Option ℤ)
    (now : String) (h0 : 0 ≤ s.current_index)
    (h1 : s.current_index < (s.grid_points.length : ℤ)) :
    0 ≤ (control_scan s a i now).2.current_index ∧
    (control_scan s a i now).2.current_index <
      ((control_scan s a i now).2.grid_points.length : ℤ) := by
  rw [control_scan_grid_points]
  unfold control_scan
  split_ifs <;> constructor <;> simp only [] <;> omega

lemma pyGetElem_neg_empty {α : Type} (i : ℤ) (hi : i < 0) :
    pyGetElem ([] : List α) i = none := by
  unfold pyGetElem
  rw [if_pos hi]
  simp only [List.length_nil, Nat.cast_zero, zero_add]
  rw [if_neg (by omega)]

lemma pyGetElem_nonneg {α : Type} (l : List α) (i : ℤ) (h : 0 ≤ i) :
    pyGetElem l i = l.get? i.toNat := by
  unfold pyGetElem
  rw [if_neg (not_lt.2 h)]
  exact if_pos h

lemma pyGetElem_in_range (s : ScanSession) (h0 : 0 ≤ s.current_index)
    (h1 : s.current_index < (s.grid_points.length : ℤ)) :
    pyGetElem s.grid_points s.current_index =
      some (s.grid_points.get ⟨s.current_index.toNat, by omega⟩) := by
  rw [pyGetElem_nonneg _ _ h0]
  exact List.get?_eq_get (by omega)

lemma add_bookmark_inv (s : ScanSession) (note : Option String) (bid ts : String)
    (h : session_inv s) : session_inv (add_bookmark s note bid ts).2 := by
  obtain ⟨h0, h1⟩ := h
  unfold add_bookmark
  split_ifs with hb
  · cases pyGetElem s.grid_points s.current_index
    · exact ⟨h0, h1⟩
    · exact ⟨h0, h1⟩
  · exact ⟨h0, h1⟩

lemma add_bookmark_ok (s : ScanSession) (note : Option String) (bid ts : String)
    (h0 : 0 ≤ s.current_index)
    (h1 : s.current_index < (s.grid_points.length : ℤ)) :
    ∃ b, (add_bookmark s note bid ts).1 = Except.ok b := by
  unfold add_bookmark
  rw [if_pos h1, pyGetElem_in_range s h0 h1]
  exact ⟨_, rfl⟩

lemma get_current_location_not_completed (s : ScanSession)
    (h0 : 0 ≤ s.current_index)
    (h1 : s.current_index < (s.grid_points.length : ℤ)) :
    (get_current_location s).1 ≠ Except.ok LocationResult.completed := by
  unfold get_current_location
  rw [if_pos h1, pyGetElem_in_range s h0 h1]
  simp

/-- C5 counterexample: the claim fails on a session created with an
empty grid (radius `-1` yields no grid points): the `next` control
action computes `min(0 + 1, 0 - 1) = -1`, breaking the lower bound of
the invariant `0 <= current_index <= len(grid_points)`. -/
theorem session_index_invariant_cex :
    (setup_scan "s" 0 0 (-1) 18 3 "t0").grid_points = [] ∧
    (control_scan (setup_scan "s" 0 0 (-1) 18 3 "t0") "next" none "t1").2.current_index = -1 ∧
    ¬ session_inv (control_scan (setup_scan "s" 0 0 (-1) 18 3 "t0") "next" none "t1").2 := by
  have hg : (setup_scan "s" 0 0 (-1) 18 3 "t0").grid_points = [] :=
    calc_grid_neg_radius 0 0 (-1) 18 (by norm_num)
  have hidx : (control_scan (setup_scan "s" 0 0 (-1) 18 3 "t0") "next" none "t1").2.current_index
      = -1 := by
    rw [control_scan_next_index, hg]
    rfl
  refine ⟨hg, hidx, ?_⟩
  intro hinv
  rw [session_inv, hidx] at hinv
  omega

/-- C5 (amended): `0 <= current_index <= len(grid_points)` holds at
session creation and is preserved by every bookmark and read operation
and by every control action, except that the `next` control action on a
session whose `grid_points` is empty sets `current_index` to `-1`
(see `session_index_invariant_cex`); on sessions with non-empty
`grid_points` every operation preserves the invariant. -/
theorem session_index_invariant :
    (∀ (sid : String) (c₁ c₂ r : ℝ) (z : ℤ) (sp : ℝ) (now : String),
      session_inv (setup_scan sid c₁ c₂ r z sp now)) ∧
    (∀ (s : ScanSession) (a : String) (i : Option ℤ) (now : String),
      session_inv s → (s.grid_points ≠ [] ∨ a ≠ "next") →
      session_inv (control_scan s a i now).2) ∧
    (∀ (s : ScanSession) (note : Option String) (bid ts : String),
      session_inv s → session_inv (add_bookmark s note bid ts).2) ∧
    (∀ s : ScanSession, session_inv s →
      session_inv (get_current_location s).2 ∧
      session_inv (get_bookmarks s).2 ∧
      session_inv (export_bookmarks s).2) := by
  refine ⟨?_, control_scan_inv, add_bookmark_inv, ?_⟩
  · intro sid c₁ c₂ r z sp now
    exact ⟨le_refl 0, Int.ofNat_nonneg _⟩
  · intro s h
    exact ⟨h, h, h⟩

/-- C5 witness: the amended theorem applied to the concrete empty-grid
session and the `previous` action. -/
theorem session_index_invariant_witness :
    session_inv sessionEmpty ∧ (sessionEmpty.grid_points ≠ [] ∨ "previous" ≠ "next") ∧
    session_inv (control_scan sessionEmpty "previous" none "t1").2 := by
  have h : session_inv sessionEmpty := ⟨le_refl 0, Int.ofNat_nonneg _⟩
  exact ⟨h, Or.inr (by decide),
    session_index_invariant.2.1 sessionEmpty "previous" none "t1" h (Or.inr (by decide))⟩

/-- C6: `next` sets `current_index` to `min(current_index + 1, len - 1)`
(so never past `len - 1`), `previous` to `max(current_index - 1, 0)` (so
never below `0`), and `jump j` to `max(0, min(j, len - 1))`; in
particular a jump to `9999` on a 500-point grid yields `499`. -/
theorem control_clamps_index :
    (∀ (s : ScanSession) (i : Option ℤ) (now : String),
      (control_scan s "next" i now).2.current_index =
        min (s.current_index + 1) ((s.grid_points.length : ℤ) - 1) ∧
      (control_scan s "previous" i now).2.current_index =
        max (s.current_index - 1) 0 ∧
      ∀ j : ℤ, (control_scan s "jump" (some j) now).2.current_index =
        max 0 (min j ((s.grid_points.length : ℤ) - 1))) ∧
    (∀ (s : ScanSession) (now : String), s.grid_points.length = 500 →
      (control_scan s "jump" (some 9999) now).2.current_index = 499) := by
  refine ⟨fun s i now => ⟨control_scan_next_index s i now,
    control_scan_previous_index s i now,
    fun j => control_scan_jump_index s j now⟩, ?_⟩
  intro s now h
  rw [control_scan_jump_index, h]
  decide

/-- C6 witness: jump to `9999` on the concrete 500-point session. -/
theorem control_clamps_index_witness :
    session500.grid_points.length = 500 ∧
    (control_scan session500 "jump" (some 9999) "t1").2.current_index = 499 :=
  ⟨List.length_replicate 500 _,
   control_clamps_index.2 session500 "t1" (List.length_replicate 500 _)⟩

/-- C7: on any session reachable through the interface (which forces
`0 <= current_index` whenever `grid_points` is non-empty — see
`session_index_invariant` / `session_index_invariant_cex`), an
out-of-range `current_index` (in particular `current_index = len`,
scan completed) makes `add_bookmark` fail with an error and leave the
session — bookmarks included — unchanged, while an in-range
`current_index` appends exactly one bookmark for the point at
`current_index`, its note defaulting to "Potential storage facility"
when none is supplied. -/
theorem add_bookmark_range (s : ScanSession) (note : Option String) (bid ts : String)
    (h : s.grid_points = [] ∨ 0 ≤ s.current_index) :
    (¬ (0 ≤ s.current_index ∧ s.current_index < (s.grid_points.length : ℤ)) →
      (∃ e, (add_bookmark s note bid ts).1 = Except.error e) ∧
      (add_bookmark s note bid ts).2 = s) ∧
    ((0 ≤ s.current_index ∧ s.current_index < (s.grid_points.length : ℤ)) →
      ∃ p b, s.grid_points.get? s.current_index.toNat = some p ∧
        b = { id := bid, lat := p.lat, lon := p.lon,
              note := note.getD "Potential storage facility",
              grid_index := s.current_index, timestamp := ts } ∧
        add_bookmark s note bid ts =
          (Except.ok b, { s with bookmarks := s.bookmarks ++ [b], last_activity := ts })) := by
  constructor
  · intro hout
    by_cases hlt : s.current_index < (s.grid_points.length : ℤ)
    · have hidx : s.current_index < 0 := by
        rcases h with hempty | h0
        · have hh : s.grid_points.length = 0 := by rw [hempty]; rfl
          by_contra hc
          exact hout ⟨by omega, hlt⟩
        · exact absurd ⟨h0, hlt⟩ hout
      have hempty : s.grid_points = [] := by
        rcases h with hempty | h0
        · exact hempty
        · omega
      have hpg : pyGetElem s.grid_points s.current_index = none := by
        rw [hempty]
        exact pyGetElem_neg_empty _ hidx
      unfold add_bookmark
      rw [if_pos hlt, hpg]
      exact ⟨⟨"IndexError", rfl⟩, rfl⟩
    · unfold add_bookmark
      rw [if_neg hlt]
      exact ⟨⟨"Invalid location for bookmarking", rfl⟩, rfl⟩
  · rintro ⟨h0, hlt⟩
    have hn : s.current_index.toNat < s.grid_points.length := by omega
    refine ⟨s.grid_points.get ⟨s.current_index.toNat, hn⟩, _,
      List.get?_eq_get hn, rfl, ?_⟩
    unfold add_bookmark
    rw [if_pos hlt, pyGetElem_in_range s h0 hlt]

/-- C7 witness: the theorem applied to the concrete session with an
empty grid and `current_index = 0` (out of range: the scan of an empty
grid is already complete). -/
theorem add_bookmark_range_witness :
    (sessionEmpty.grid_points = [] ∨ 0 ≤ sessionEmpty.current_index) ∧
    ((∃ e, (add_bookmark sessionEmpty none "b0" "t1").1 = Except.error e) ∧
      (add_bookmark sessionEmpty none "b0" "t1").2 = sessionEmpty) :=
  ⟨Or.inl rfl,
   (add_bookmark_range sessionEmpty none "b0" "t1" (Or.inl rfl)).1 (by
     intro hc
     exact absurd hc.2 (by decide))⟩

/-- C8 counterexample: the claim fails on a session created with an
empty grid (radius `-1`): `export` divides `current_index` by
`len(grid_points) = 0` and raises `ZeroDivisionError` instead of
returning a snapshot. -/
theorem export_snapshot_cex :
    (export_bookmarks (setup_scan "s" 0 0 (-1) 18 3 "t0")).1 =
      Except.error "ZeroDivisionError" := by
  have hg : (setup_scan "s" 0 0 (-1) 18 3 "t0").grid_points = [] :=
    calc_grid_neg_radius 0 0 (-1) 18 (by norm_num)
  unfold export_bookmarks
  rw [hg]
  rfl

/-- C8 (amended): on every session with non-empty `grid_points`,
`export` is a read-only view returning the snapshot of the scan
parameters and all bookmarks with
`completion_percentage = current_index / len(grid_points) * 100`, and
the session is left untouched; on a session with empty `grid_points`
the division raises `ZeroDivisionError` (see `export_snapshot_cex`),
still touching nothing. -/
theorem export_snapshot (s : ScanSession) (h : s.grid_points ≠ []) :
    export_bookmarks s =
      (Except.ok
        { center_lat := s.center_lat
          center_lon := s.center_lon
          radius_miles := s.radius_miles
          zoom_level := s.zoom_level
          total_points_scanned := s.current_index
          scan_date := s.created_at
          bookmarks := s.bookmarks
          total_bookmarks := s.bookmarks.length
          areas_scanned := s.current_index
          completion_percentage :=
            (s.current_index : ℝ) / (s.grid_points.length : ℝ) * 100 }, s) := by
  unfold export_bookmarks
  rw [if_neg (fun hh => h (List.length_eq_zero.1 hh))]

lemma session500_nonempty : session500.grid_points ≠ [] := by
  intro hh
  have hl : session500.grid_points.length = 500 := List.length_replicate 500 _
  rw [hh] at hl
  exact absurd hl (by decide)

/-- C8 witness: the amended theorem applied to the concrete 500-point
session. -/
theorem export_snapshot_witness :
    session500.grid_points ≠ [] ∧
    export_bookmarks session500 =
      (Except.ok
        { center_lat := session500.center_lat
          center_lon := session500.center_lon
          radius_miles := session500.radius_miles
          zoom_level := session500.zoom_level
          total_points_scanned := session500.current_index
          scan_date := session500.created_at
          bookmarks := session500.bookmarks
          total_bookmarks := session500.bookmarks.length
          areas_scanned := session500.current_index
          completion_percentage :=
            (session500.current_index : ℝ) / (session500.grid_points.length : ℝ) * 100 },
       session500) :=
  ⟨session500_nonempty, export_snapshot session500 session500_nonempty⟩

/-- C9: an action outside
`start/pause/resume/stop/next/previous/jump` is a silent no-op: the
handler reports success and changes nothing but `last_activity`; and
every control call, known or unknown, writes `now` to `last_activity`. -/
theorem control_unknown_noop (s : ScanSession) (a : String) (i : Option ℤ)
    (now : String)
    (h : a ∉ (["start", "pause", "resume", "stop", "next", "previous", "jump"] :
      List String)) :
    control_scan s a i now = (Except.ok (), { s with last_activity := now }) ∧
    (∀ (a2 : String) (i2 : Option ℤ) (now2 : String),
      (control_scan s a2 i2 now2).2.last_activity = now2) := by
  constructor
  · simp only [List.mem_cons, List.not_mem_nil, or_false, not_or] at h
    obtain ⟨h1, h2, h3, h4, h5, h6, h7⟩ := h
    unfold control_scan
    rw [if_neg h1, if_neg h2, if_neg h3, if_neg h4, if_neg h5, if_neg h6, if_neg h7]
  · intro a2 i2 now2
    unfold control_scan
    split_ifs <;> rfl

/-- C9 witness: the concrete unknown action `"zoom"`. -/
theorem control_unknown_noop_witness :
    ("zoom" ∉ (["start", "pause", "resume", "stop", "next", "previous", "jump"] :
      List String)) ∧
    control_scan sessionEmpty "zoom" none "t9" =
      (Except.ok (), { sessionEmpty with last_activity := "t9" }) :=
  ⟨by decide,
   (control_unknown_noop sessionEmpty "zoom" none "t9" (by decide)).1⟩

lemma run_controls_inv (acts : List (String × Option ℤ × String)) (s : ScanSession)
    (h0 : 0 ≤ s.current_index)
    (h1 : s.current_index < (s.grid_points.length : ℤ)) :
    0 ≤ (run_controls s acts).current_index ∧
    (run_controls s acts).current_index <
      ((run_controls s acts).grid_points.length : ℤ) := by
  induction acts generalizing s with
  | nil => exact ⟨h0, h1⟩
  | cons a as ih =>
    have h := control_scan_strong_inv s a.1 a.2.1 a.2.2 h0 h1
    exact ih _ h.1 h.2

/-- C10: a session created with a non-empty grid can never reach
`current_index = len(grid_points)` through control actions: after any
sequence of `control_scan` requests, `current_index` stays in
`[0, len - 1]`, `get_current_location` never reports the completed
result, and `add_bookmark` cannot hit its out-of-range failure. -/
theorem control_never_completes (sid : String) (c₁ c₂ r : ℝ) (z : ℤ) (sp : ℝ)
    (now : String) (acts : List (String × Option ℤ × String))
    (note : Option String) (bid ts : String)
    (h : calculate_scan_grid c₁ c₂ r z ≠ []) :
    0 ≤ (run_controls (setup_scan sid c₁ c₂ r z sp now) acts).current_index ∧
    (run_controls (setup_scan sid c₁ c₂ r z sp now) acts).current_index ≤
      ((run_controls (setup_scan sid c₁ c₂ r z sp now) acts).grid_points.length : ℤ) - 1 ∧
    (get_current_location (run_controls (setup_scan sid c₁ c₂ r z sp now) acts)).1 ≠
      Except.ok LocationResult.completed ∧
    ∃ b, (add_bookmark (run_controls (setup_scan sid c₁ c₂ r z sp now) acts)
      note bid ts).1 = Except.ok b := by
  have hlen : (setup_scan sid c₁ c₂ r z sp now).grid_points.length ≠ 0 := by
    intro hh
    exact h (List.length_eq_zero.1 hh)
  have h0 : (0 : ℤ) ≤ (setup_scan sid c₁ c₂ r z sp now).current_index := le_refl 0
  have h1 : (setup_scan sid c₁ c₂ r z sp now).current_index <
      ((setup_scan sid c₁ c₂ r z sp now).grid_points.length : ℤ) := by
    show (0 : ℤ) < ((setup_scan sid c₁ c₂ r z sp now).grid_points.length : ℤ)
    omega
  obtain ⟨g0, g1⟩ := run_controls_inv acts _ h0 h1
  exact ⟨g0, by omega, get_current_location_not_completed _ g0 g1,
    add_bookmark_ok _ note bid ts g0 g1⟩

/-- C10 witness: the theorem applied to the concrete one-point session
(radius `0` keeps exactly the lattice center) and a concrete request
sequence. -/
theorem control_never_completes_witness :
    calculate_scan_grid 0 0 0 18 ≠ [] ∧
    (0 ≤ (run_controls (setup_scan "w" 0 0 0 18 3 "t0")
        [("next", none, "u1"), ("jump", some 7, "u2")]).current_index ∧
    (run_controls (setup_scan "w" 0 0 0 18 3 "t0")
        [("next", none, "u1"), ("jump", some 7, "u2")]).current_index ≤
      ((run_controls (setup_scan "w" 0 0 0 18 3 "t0")
        [("next", none, "u1"), ("jump", some 7, "u2")]).grid_points.length : ℤ) - 1 ∧
    (get_current_location (run_controls (setup_scan "w" 0 0 0 18 3 "t0")
        [("next", none, "u1"), ("jump", some 7, "u2")])).1 ≠
      Except.ok LocationResult.completed ∧
    ∃ b, (add_bookmark (run_controls (setup_scan "w" 0 0 0 18 3 "t0")
        [("next", none, "u1"), ("jump", some 7, "u2")]) none "b1" "u3").1 =
      Except.ok b) := by
  have hne : calculate_scan_grid 0 0 0 18 ≠ [] := by
    rw [grid_zero_radius_eval]
    simp
  exact ⟨hne, control_never_completes "w" 0 0 0 18 3 "t0"
    [("next", none, "u1"), ("jump", some 7, "u2")] none "b1" "u3" hne⟩
